import Mathlib

/-!
Verification of the cable voltage-drop calculation engine in
`cable_calculator.py` (ISLKey/Cable-Calculator).

The engine consists of a static catalog `CABLE_DATA`, a linear temperature
compensation of resistance with coefficient `ALPHA_COPPER`, a forward
voltage-drop calculator `calculate_voltage_drop`, and a reverse core-count
solver `determine_cores_required`.

Modelling conventions:
- Python floats are modelled as exact rationals (ℚ); the numeric literals of
  the source appear as the corresponding exact rationals.
- Python exceptions (ValueError on an unknown catalog pair, ZeroDivisionError
  on division by zero) are modelled with an `Except PyError` result.
- The reverse solver in the source returns either a Python int or the value
  float(inf); this is modelled by the inductive `CoreResult`, whose
  constructor `floatInf` embeds the source value float(inf).
- The Python builtin round (round half to even on the exact value) is
  modelled by `pyRound`.
-/

/-- Exceptions the engine can raise: ValueError from the explicit raise on an
unknown (cable_type, conductor_spec) pair, and ZeroDivisionError from the
division by num_cores. -/
inductive PyError
  | valueError
  | zeroDivisionError
deriving DecidableEq, Repr

/-- Result values of `determine_cores_required`: a Python int core count, or
the value float(inf) the source returns to mark an impossible scenario
(source lines 81 and 90). -/
inductive CoreResult
  | count (n : ℤ)
  | floatInf
deriving DecidableEq, Repr

/-- The catalog CABLE_DATA of the source (lines 9 to 19): resistance per meter
in Ohms per meter at 20 degrees Celsius, keyed by cable family and conductor
specification; absent pairs yield `none`. -/
def CABLE_DATA (cable_type conductor_spec : String) : Option ℚ :=
  if cable_type = "alarm" then
    if conductor_spec = "18 AWG" then some (209/10000)
    else if conductor_spec = "22 AWG" then some (333/10000)
    else if conductor_spec = "24 AWG" then some (529/10000)
    else none
  else if cable_type = "network" then
    if conductor_spec = "Cat5e" then some (938/10000)
    else if conductor_spec = "Cat6" then some (700/10000)
    else none
  else none

/-- Temperature coefficient for copper (alpha at 20 degrees Celsius), source
line 22: 0.00393. -/
def ALPHA_COPPER : ℚ := 393/100000

/-- Temperature compensation of a reference resistance, the expression
`resistance_per_meter_at_20c * (1 + ALPHA_COPPER * (temp_c - 20))` from source
lines 46 and 76. -/
def compensate (resistance_ref temp_c : ℚ) : ℚ :=
  resistance_ref * (1 + ALPHA_COPPER * (temp_c - 20))

/-- The Python builtin round with one argument: round to the nearest integer,
ties to the even integer. -/
def pyRound (q : ℚ) : ℤ :=
  if q - ⌊q⌋ < 1/2 then ⌊q⌋
  else if 1/2 < q - ⌊q⌋ then ⌊q⌋ + 1
  else if 2 ∣ ⌊q⌋ then ⌊q⌋ else ⌊q⌋ + 1

/-- The forward calculator `calculate_voltage_drop` (source lines 24 to 54).
Raises ValueError when the (cable_type, conductor_spec) pair is not in
CABLE_DATA; otherwise compensates the resistance for temperature, forms the
round-trip resistance `resistance * length * 2 / num_cores` (ZeroDivisionError
when num_cores is 0), and returns `current_a * total_resistance`. -/
def calculate_voltage_drop (length_m current_a : ℚ)
    (cable_type conductor_spec : String) (num_cores : ℤ) (temp_c : ℚ) :
    Except PyError ℚ :=
  match CABLE_DATA cable_type conductor_spec with
  | none => .error .valueError
  | some resistance_per_meter_at_20c =>
    let resistance_per_meter_at_temp :=
      compensate resistance_per_meter_at_20c temp_c
    if num_cores = 0 then .error .zeroDivisionError
    else
      let total_resistance :=
        resistance_per_meter_at_temp * length_m * 2 / (num_cores : ℚ)
      .ok (current_a * total_resistance)

/-- The reverse solver `determine_cores_required` (source lines 56 to 93).
Raises ValueError on an unknown pair; returns 1 (or float(inf) for a negative
allowed drop) when required_current is 0; returns float(inf) when the maximum
allowed resistance is not positive; otherwise returns
`max(1, int(round(single_path_resistance / max_allowed_resistance)))`. -/
def determine_cores_required (length_m required_voltage required_current : ℚ)
    (cable_type conductor_spec : String)
    (min_voltage_percent_drop temp_c : ℚ) : Except PyError CoreResult :=
  match CABLE_DATA cable_type conductor_spec with
  | none => .error .valueError
  | some resistance_per_meter_at_20c =>
    let resistance_per_meter_at_temp :=
      compensate resistance_per_meter_at_20c temp_c
    let max_allowed_voltage_drop :=
      required_voltage * (min_voltage_percent_drop / 100)
    if required_current = 0 then
      .ok (if max_allowed_voltage_drop ≥ 0 then .count 1 else .floatInf)
    else
      let max_allowed_resistance := max_allowed_voltage_drop / required_current
      let single_path_resistance := resistance_per_meter_at_temp * length_m * 2
      if max_allowed_resistance ≤ 0 then .ok .floatInf
      else
        let cores_needed := single_path_resistance / max_allowed_resistance
        .ok (.count (max 1 (pyRound cores_needed)))

/-- Every resistance value stored in CABLE_DATA is positive. -/
theorem CABLE_DATA_pos (f g : String) (r : ℚ) (h : CABLE_DATA f g = some r) :
    0 < r := by
  unfold CABLE_DATA at h
  split_ifs at h <;> simp_all <;> norm_num [← h]

/-- C1: for every valid (family, gauge_id) pair and every length, current,
num_cores at least 1 and temperature, the forward calculator returns
`current_a * (resistance_per_meter * (1 + 0.00393 * (temp_c - 20)) * length_m
* 2 / num_cores)`. -/
theorem C1_forward_formula (f g : String) (r : ℚ) (hfg : CABLE_DATA f g = some r)
    (L c t : ℚ) (n : ℤ) (hn : 1 ≤ n) :
    calculate_voltage_drop L c f g n t =
      .ok (c * (r * (1 + (393/100000) * (t - 20)) * L * 2 / (n : ℚ))) := by
  have hn0 : n ≠ 0 := by omega
  unfold calculate_voltage_drop
  rw [hfg]
  simp [hn0, compensate, ALPHA_COPPER]

/-- C1 witness: the spec example, compute(50 m, 0.5 A, alarm, 18 AWG, 1 core,
20 C) returns 1.045 V. -/
theorem C1_forward_formula_witness :
    calculate_voltage_drop 50 (1/2) "alarm" "18 AWG" 1 20 = .ok (1045/1000) := by
  rw [C1_forward_formula "alarm" "18 AWG" (209/10000) (by simp [CABLE_DATA])
    50 (1/2) 20 1 (by norm_num)]
  norm_num

/-- C2: for every valid pair, nonzero required current and positive maximum
allowed resistance, the reverse solver returns
`max 1 (round (single_path_resistance / max_allowed_resistance))` as an
integer core count, rounding to the nearest whole number. -/
theorem C2_reverse_formula (f g : String) (r : ℚ) (hfg : CABLE_DATA f g = some r)
    (L V I p t : ℚ) (hI : I ≠ 0) (hpos : 0 < V * (p / 100) / I) :
    determine_cores_required L V I f g p t =
      .ok (.count (max 1 (pyRound
        (r * (1 + (393/100000) * (t - 20)) * L * 2 / (V * (p / 100) / I))))) := by
  unfold determine_cores_required
  rw [hfg]
  simp [hI, not_le.mpr hpos, compensate, ALPHA_COPPER]

/-- C2 witness: the spec example, solve(100 m, 12 V, 1 A, network, Cat5e,
10 percent, 20 C) returns 16 cores. -/
theorem C2_reverse_formula_witness :
    determine_cores_required 100 12 1 "network" "Cat5e" 10 20 =
      .ok (.count 16) := by
  rw [C2_reverse_formula "network" "Cat5e" (938/10000) (by simp [CABLE_DATA])
    100 12 1 10 20 (by norm_num) (by norm_num)]
  norm_num [pyRound, Int.fract]

/-- C3 counterexample: at temp_c = -300 the compensation factor is negative
and the forward calculator returns a strictly negative voltage drop, so the
result is not nonnegative for every real temp_c. -/
theorem C3_negative_drop_counterexample :
    calculate_voltage_drop 1 1 "alarm" "18 AWG" 1 (-300) =
      .ok (-(33649/3125000)) ∧ (-(33649/3125000) : ℚ) < 0 := by
  constructor
  · simp [calculate_voltage_drop, CABLE_DATA, compensate, ALPHA_COPPER]
    norm_num
  · norm_num

/-- C3 amended: for every valid pair, length > 0, current at least 0,
num_cores at least 1, and every temp_c whose compensation factor
`1 + ALPHA_COPPER * (temp_c - 20)` is nonnegative, the forward result is
nonnegative. -/
theorem C3_nonneg_drop (f g : String) (r : ℚ) (hfg : CABLE_DATA f g = some r)
    (L c t : ℚ) (n : ℤ) (hL : 0 < L) (hc : 0 ≤ c) (hn : 1 ≤ n)
    (ht : 0 ≤ 1 + ALPHA_COPPER * (t - 20)) (v : ℚ)
    (hv : calculate_voltage_drop L c f g n t = .ok v) : 0 ≤ v := by
  have hr := CABLE_DATA_pos f g r hfg
  have hn0 : n ≠ 0 := by omega
  have hnQ : (0 : ℚ) ≤ (n : ℚ) := by exact_mod_cast (by omega : (0 : ℤ) ≤ n)
  unfold calculate_voltage_drop at hv
  rw [hfg] at hv
  simp only [hn0, if_false, ite_false, if_neg hn0, Except.ok.injEq] at hv
  rw [← hv]
  have hcomp : 0 ≤ compensate r t := by
    unfold compensate
    exact mul_nonneg hr.le ht
  have : 0 ≤ compensate r t * L * 2 / (n : ℚ) :=
    div_nonneg (by positivity) hnQ
  exact mul_nonneg hc this

/-- C3 witness: the amended theorem at the 50 m, 0.5 A, 18 AWG, 20 C example,
whose drop 1.045 V is nonnegative. -/
theorem C3_nonneg_drop_witness :
    calculate_voltage_drop 50 (1/2) "alarm" "18 AWG" 1 20 = .ok (209/200) ∧
      (0 : ℚ) ≤ 209/200 := by
  have h : calculate_voltage_drop 50 (1/2) "alarm" "18 AWG" 1 20 =
      .ok (209/200) := by
    simp [calculate_voltage_drop, CABLE_DATA, compensate, ALPHA_COPPER]
    norm_num
  exact ⟨h, C3_nonneg_drop "alarm" "18 AWG" (209/10000) (by simp [CABLE_DATA])
    50 (1/2) 20 1 (by norm_num) (by norm_num) (by norm_num)
    (by norm_num [ALPHA_COPPER]) (209/200) h⟩

/-- C4 counterexample: with max_drop_percent = 0 but required_current = 0 the
solver returns 1 core, not the infeasible marker, so the claim fails as
quantified over all required_current values. -/
theorem C4_zero_percent_counterexample :
    determine_cores_required 1 12 0 "alarm" "18 AWG" 0 20 = .ok (.count 1) ∧
      CoreResult.count 1 ≠ CoreResult.floatInf := by
  constructor
  · simp [determine_cores_required, CABLE_DATA, compensate, ALPHA_COPPER]
  · simp

/-- C4 amended: for every valid pair and nonzero required current, the solver
returns the infeasible marker float(inf) whenever max_drop_percent = 0 or
source_voltage_v = 0. -/
theorem C4_infeasible_on_zero (f g : String) (r : ℚ)
    (hfg : CABLE_DATA f g = some r) (L V I p t : ℚ) (hI : I ≠ 0)
    (h : p = 0 ∨ V = 0) :
    determine_cores_required L V I f g p t = .ok .floatInf := by
  unfold determine_cores_required
  rw [hfg]
  rcases h with h | h <;> subst h <;> simp [hI]

/-- C4 witness: the amended theorem at source_voltage_v = 0 with 1 A of
required current on 18 AWG alarm cable. -/
theorem C4_infeasible_on_zero_witness :
    determine_cores_required 1 0 1 "alarm" "18 AWG" 10 20 = .ok .floatInf :=
  C4_infeasible_on_zero "alarm" "18 AWG" (209/10000) (by simp [CABLE_DATA])
    1 0 1 10 20 (by norm_num) (Or.inr rfl)

/-- C5: at the failing input (1 m, 12 V, 1 A, alarm, 18 AWG, 0 percent, 20 C)
the solver returns `floatInf`, the embedding of the source value float(inf)
(line 90), a numeric floating-point value returned from a function whose
docstring declares an int return, not a non-numeric sentinel. -/
theorem C5_infeasible_is_float_inf :
    determine_cores_required 1 12 1 "alarm" "18 AWG" 0 20 = .ok .floatInf := by
  simp [determine_cores_required, CABLE_DATA, compensate, ALPHA_COPPER]

/-- C6: for every valid pair, required_current = 0 makes the solver return 1
core when the maximum allowed drop is nonnegative and the infeasible marker
otherwise, independently of length and temperature, before any other
feasibility check. -/
theorem C6_zero_current_guard (f g : String) (r : ℚ)
    (hfg : CABLE_DATA f g = some r) (L V p t : ℚ) :
    determine_cores_required L V 0 f g p t =
      .ok (if V * (p / 100) ≥ 0 then .count 1 else .floatInf) := by
  unfold determine_cores_required
  rw [hfg]
  simp

/-- C6 witness: solve with required_current = 0 on 18 AWG alarm cable at 12 V
and 10 percent returns 1 core. -/
theorem C6_zero_current_guard_witness :
    determine_cores_required 1 12 0 "alarm" "18 AWG" 10 20 =
      .ok (.count 1) := by
  rw [C6_zero_current_guard "alarm" "18 AWG" (209/10000) (by simp [CABLE_DATA])
    1 12 10 20]
  norm_num

/-- C7: the catalog holds exactly the five tabulated resistances, and on any
(family, gauge_id) pair outside the catalog both the forward calculator and
the reverse solver fail with the ValueError instead of returning a value. -/
theorem C7_catalog_exact :
    CABLE_DATA "alarm" "18 AWG" = some (209/10000) ∧
    CABLE_DATA "alarm" "22 AWG" = some (333/10000) ∧
    CABLE_DATA "alarm" "24 AWG" = some (529/10000) ∧
    CABLE_DATA "network" "Cat5e" = some (938/10000) ∧
    CABLE_DATA "network" "Cat6" = some (700/10000) ∧
    ∀ f g : String, CABLE_DATA f g = none →
      ∀ L c t V I p : ℚ, ∀ n : ℤ,
        calculate_voltage_drop L c f g n t = .error .valueError ∧
        determine_cores_required L V I f g p t = .error .valueError := by
  refine ⟨by simp [CABLE_DATA], by simp [CABLE_DATA], by simp [CABLE_DATA],
    by simp [CABLE_DATA], by simp [CABLE_DATA],
    fun f g h L c t V I p n => ⟨?_, ?_⟩⟩
  · unfold calculate_voltage_drop
    rw [h]
  · unfold determine_cores_required
    rw [h]

/-- C7 witness: the unknown pair (power, 10 AWG) makes both entry points fail
with the ValueError. -/
theorem C7_catalog_exact_witness :
    calculate_voltage_drop 1 1 "power" "10 AWG" 1 20 = .error .valueError ∧
      determine_cores_required 1 12 1 "power" "10 AWG" 10 20 =
        .error .valueError :=
  C7_catalog_exact.2.2.2.2.2 "power" "10 AWG" (by simp [CABLE_DATA])
    1 1 20 12 1 10 1

/-- C8: for every valid pair and num_cores at least 1, the forward drop with
num_cores = N times N equals the drop with num_cores = 1, and scaling the
current or the length by k scales the drop by k. -/
theorem C8_proportionality (f g : String) (r : ℚ)
    (hfg : CABLE_DATA f g = some r) (L c t k : ℚ) (n : ℤ) (hn : 1 ≤ n)
    (v : ℚ) (hv : calculate_voltage_drop L c f g n t = .ok v) :
    calculate_voltage_drop L c f g 1 t = .ok (v * n) ∧
    calculate_voltage_drop L (k * c) f g n t = .ok (k * v) ∧
    calculate_voltage_drop (k * L) c f g n t = .ok (k * v) := by
  have hn0 : n ≠ 0 := by omega
  have hnQ : ((n : ℚ)) ≠ 0 := Int.cast_ne_zero.mpr hn0
  unfold calculate_voltage_drop at hv ⊢
  rw [hfg] at hv ⊢
  simp only [if_neg hn0, Except.ok.injEq] at hv
  refine ⟨?_, ?_, ?_⟩ <;>
    simp only [if_neg hn0, one_ne_zero, if_false, ite_false,
      if_neg (one_ne_zero (α := ℤ)), Except.ok.injEq, ← hv] <;>
    push_cast <;>
    field_simp <;>
    ring

/-- C8 witness: the 50 m, 0.5 A, 18 AWG example with num_cores = 2 yields
0.5225 V, exactly half of the 1.045 V one-core drop. -/
theorem C8_proportionality_witness :
    calculate_voltage_drop 50 (1/2) "alarm" "18 AWG" 2 20 = .ok (209/400) ∧
      calculate_voltage_drop 50 (1/2) "alarm" "18 AWG" 1 20 =
        .ok (209/400 * 2) := by
  have h : calculate_voltage_drop 50 (1/2) "alarm" "18 AWG" 2 20 =
      .ok (209/400) := by
    simp [calculate_voltage_drop, CABLE_DATA, compensate, ALPHA_COPPER]
    norm_num
  exact ⟨h, (C8_proportionality "alarm" "18 AWG" (209/10000)
    (by simp [CABLE_DATA]) 50 (1/2) 20 0 2 (by norm_num) (209/400) h).1⟩

/-- C9: temperature compensation is the identity at the reference temperature
of 20 degrees Celsius. -/
theorem C9_compensate_identity (r : ℚ) : compensate r 20 = r := by
  unfold compensate ALPHA_COPPER
  ring

/-- C10: for every valid pair and all other inputs, num_cores = 0 makes the
forward calculator reach the unguarded division by zero: it fails with the
ZeroDivisionError, and no other validation error precedes it. -/
theorem C10_zero_cores_division (f g : String) (r : ℚ)
    (hfg : CABLE_DATA f g = some r) (L c t : ℚ) :
    calculate_voltage_drop L c f g 0 t = .error .zeroDivisionError := by
  unfold calculate_voltage_drop
  rw [hfg]
  simp

/-- C10 witness: num_cores = 0 on the 18 AWG alarm entry fails with the
ZeroDivisionError. -/
theorem C10_zero_cores_division_witness :
    calculate_voltage_drop 1 1 "alarm" "18 AWG" 0 20 =
      .error .zeroDivisionError :=
  C10_zero_cores_division "alarm" "18 AWG" (209/10000) (by simp [CABLE_DATA])
    1 1 20
